import Mathlib

/-!
Shallow embedding of `src/mainloop.cpp` from the aero-optical-flow repository.

The embedding covers the two core routines named by the spec:

* `Mainloop::camera_callback` (lines 113-191): timestamp rebasing in unsigned
  32-bit arithmetic, the gyro-liveness check, the flow-quality gate, and the
  assembly of the outgoing `mavlink_optical_flow_rad_t` message.  The flow
  estimator (`calcFlow`) and the inertial driver (`gyro_integrated_get`) are
  external collaborators: their per-call results are taken as inputs
  (`FlowResult`, `GyroSample`).  Numeric payloads that the handler merely
  copies through (gyro doubles, flow floats) are modelled by integers, since
  the handler performs no arithmetic on them; the external MAVLink wire
  widths of the copied fields are not modelled.
* The wake-up dispatch of `Mainloop::loop` (lines 85-104): `poll` returns the
  number of descriptors with nonzero `revents`; the dispatch walks the
  descriptor array, decrementing that count once per descriptor examined.
* The startup/teardown paths of `Mainloop::run` (lines 193-282), modelled as
  an event trace indexed by which collaborator steps succeed.

Machine integers are `Nat` with explicit reduction modulo `2 ^ 32` (the
`uint32_t img_time_us` of line 131) and modulo `2 ^ 64` (the `uint64_t
time_usec` field of the message, assigned from 64-bit arithmetic on the
`timeval` fields at line 177).  `USEC_PER_SEC` is the usual `1000000`
microseconds-per-second constant from `util.h`.
-/

def USEC_PER_SEC : Nat := 1000000

def U32 : Nat := 4294967296

def U64 : Nat := 18446744073709551616

/-- `struct timeval` with non-negative fields, as delivered by the camera
driver to the frame callback. -/
structure Timeval where
  tv_sec : Nat
  tv_usec : Nat
deriving DecidableEq

/-- Line 131: `uint32_t img_time_us = timestamp->tv_usec + timestamp->tv_sec *
USEC_PER_SEC;` — the 64-bit sum truncated into a `uint32_t`. -/
def raw_us (t : Timeval) : Nat :=
  (t.tv_usec + t.tv_sec * USEC_PER_SEC) % U32

/-- Line 177: `msg.time_usec = timestamp->tv_usec + timestamp->tv_sec *
USEC_PER_SEC;` — the same sum, but assigned to the message's `uint64_t`
field without the 32-bit truncation. -/
def raw_us64 (t : Timeval) : Nat :=
  (t.tv_usec + t.tv_sec * USEC_PER_SEC) % U64

/-- Lines 136-144: the timestamp-rebase branch.  State is
`_camera_initial_timestamp`; the pair returned is (new initial timestamp,
rebased `img_time_us`).  The C code tests the stored initial timestamp for
truthiness (`if (_camera_initial_timestamp)`): a stored zero means the origin
is still unset.  `img_time_us -= _camera_initial_timestamp` is `uint32_t`
subtraction, i.e. difference modulo `2 ^ 32`. -/
def rebase_step (initial img : Nat) : Nat × Nat :=
  if initial ≠ 0 then (initial, (img + U32 - initial % U32) % U32)
  else (img, 0)

/-- `rebase_step` iterated over a frame sequence, returning the rebased
timestamp of each frame. -/
def rebase_list : Nat → List Nat → List Nat
  | _, [] => []
  | init, img :: rest =>
    let p := rebase_step init img
    p.2 :: rebase_list p.1 rest

/-- The rebased timestamps produced for a sequence of raw camera `timeval`s,
starting from the zero-initialised `_camera_initial_timestamp`. -/
def rebased_seq (l : List Timeval) : List Nat :=
  rebase_list 0 (l.map raw_us)

/-- The per-frame result of the external flow estimator
(`_optical_flow->calcFlow`): quality plus the `dt_us`, `flow_x_ang`,
`flow_y_ang` out-parameters. -/
structure FlowResult where
  quality : Int
  dt_us : Int
  x : Int
  y : Int
deriving DecidableEq

/-- The per-frame result of `_bmi->gyro_integrated_get`: the integrated
`Point3_<double>` and the `struct timespec` sample timestamp. -/
structure GyroSample where
  x : Int
  y : Int
  z : Int
  ts_sec : Int
  ts_nsec : Int
deriving DecidableEq

/-- The `mavlink_optical_flow_rad_t` message as populated at lines 176-188. -/
structure FlowMsg where
  time_usec : Nat
  integration_time_us : Int
  integrated_x : Int
  integrated_y : Int
  integrated_xgyro : Int
  integrated_ygyro : Int
  integrated_zgyro : Int
  time_delta_distance_us : Nat
  distance : Int
  temperature : Int
  sensor_id : Nat
  quality : Int
deriving DecidableEq

/-- The `Mainloop` session state mutated by `camera_callback`:
`_camera_initial_timestamp`, `_camera_prev_timestamp`, and
`_gyro_last_timespec`. -/
structure MainState where
  cam_initial : Nat
  cam_prev : Nat
  gyro_last_sec : Int
  gyro_last_nsec : Int
deriving DecidableEq

/-- `Mainloop::camera_callback` (lines 113-191), with the two external query
results passed in.  Returns the updated session state and the optionally
emitted message (`none` models the early `return`s at lines 163 and 173). -/
def camera_callback (st : MainState) (ts : Timeval) (flow : FlowResult)
    (gyro : GyroSample) : MainState × Option FlowMsg :=
  let p := rebase_step st.cam_initial (raw_us ts)
  let st1 : MainState :=
    { st with cam_initial := p.1, cam_prev := p.2 }
  if st1.gyro_last_sec = gyro.ts_sec ∧ st1.gyro_last_nsec = gyro.ts_nsec then
    (st1, none)
  else
    let st2 : MainState :=
      { st1 with gyro_last_sec := gyro.ts_sec, gyro_last_nsec := gyro.ts_nsec }
    if flow.quality < 0 then
      (st2, none)
    else
      (st2, some
        { time_usec := raw_us64 ts
          integration_time_us := flow.dt_us
          integrated_x := flow.x
          integrated_y := flow.y
          integrated_xgyro := gyro.x
          integrated_ygyro := gyro.y
          integrated_zgyro := gyro.z
          time_delta_distance_us := 0
          distance := -1
          temperature := 0
          sensor_id := 0
          quality := flow.quality })

/-- One camera frame together with the collaborator results observed while
handling it. -/
structure FrameInput where
  ts : Timeval
  flow : FlowResult
  gyro : GyroSample
deriving DecidableEq

/-- `camera_callback` iterated over a frame sequence, collecting the emitted
messages in order. -/
def run_frames : MainState → List FrameInput → MainState × List FlowMsg
  | st, [] => (st, [])
  | st, f :: rest =>
    let r := camera_callback st f.ts f.flow f.gyro
    let rr := run_frames r.1 rest
    (rr.1, (match r.2 with | some m => [m] | none => []) ++ rr.2)

/-- The zero-initialised session state at loop start. -/
def st0 : MainState :=
  { cam_initial := 0, cam_prev := 0, gyro_last_sec := 0, gyro_last_nsec := 0 }

/-! ### The wake-up dispatch of `Mainloop::loop` (lines 85-104) -/

def POLLIN : Nat := 1

def POLLPRI : Nat := 2

def POLLOUT : Nat := 4

/-- One `struct pollfd` after `poll` returns: the registered handle and the
returned events bitmask. -/
structure PollFd where
  fd : Nat
  revents : Nat
deriving DecidableEq

/-- A dispatched handler call: `pollables[j]->handle_read()` or
`pollables[j]->handle_canwrite()` for pollable index `j` (0 = camera,
1 = inertial sensor, 2 = telemetry transport). -/
inductive Dispatch where
  | read (j : Nat)
  | canwrite (j : Nat)
deriving DecidableEq

/-- Lines 92-102: the inner loop over `pollables` for one descriptor; the
first pollable whose `_fd` matches is dispatched (read on
`POLLIN | POLLPRI`, write on `POLLOUT`) and the loop `break`s. -/
def dispatch_one (fds : List Nat) (d : PollFd) : List Dispatch :=
  match fds.findIdx? (fun f => f == d.fd) with
  | none => []
  | some j =>
    (if d.revents &&& (POLLIN ||| POLLPRI) ≠ 0 then [Dispatch.read j] else []) ++
    (if d.revents &&& POLLOUT ≠ 0 then [Dispatch.canwrite j] else [])

/-- Line 91: `for (unsigned i = 0; ret && i < len; i++, ret--)` — the outer
loop over the descriptor array; `ret` is decremented once per descriptor
examined, and the loop stops as soon as it reaches zero. -/
def wake_dispatch (fds : List Nat) : Nat → List PollFd → List Dispatch
  | _, [] => []
  | 0, _ => []
  | r + 1, d :: rest => dispatch_one fds d ++ wake_dispatch fds r rest

/-- `poll`'s return value on a wake: the number of descriptors with a nonzero
returned events mask. -/
def poll_ret (ds : List PollFd) : Nat :=
  (ds.filter (fun d => d.revents ≠ 0)).length

/-- One iteration of the wake-up handling (lines 86-103): `poll` reports how
many descriptors are ready, then the dispatch walk runs. -/
def wake (fds : List Nat) (ds : List PollFd) : List Dispatch :=
  wake_dispatch fds (poll_ret ds) ds

/-! ### `Mainloop::run` (lines 193-282) -/

/-- Observable collaborator actions of `Mainloop::run`, in the order the code
performs them. -/
inductive Ev where
  | new_camera
  | camera_init
  | new_mavlink
  | mavlink_init
  | new_flow
  | new_bmi
  | bmi_init
  | bmi_calibrate
  | bmi_start
  | loop_run
  | bmi_stop
  | delete_bmi
  | delete_flow
  | delete_mavlink
  | camera_shutdown
  | delete_camera
deriving DecidableEq

/-- Which collaborator steps succeed in a given execution of `run`. -/
structure RunEnv where
  camera_alloc_ok : Bool
  camera_init_ok : Bool
  mavlink_alloc_ok : Bool
  mavlink_init_ok : Bool
  flow_alloc_ok : Bool
  bmi_alloc_ok : Bool
  bmi_init_ok : Bool
  calibrate : Bool
  bmi_start_ok : Bool
deriving DecidableEq

/-- `Mainloop::run` as an event trace: the nested `if`s mirror the source's
failure checks, and each failure branch inlines the `goto` chain of lines
270-281 from its entry label downwards.  Returns the status code and the
trace of collaborator actions. -/
def run (e : RunEnv) : Int × List Ev :=
  if e.camera_alloc_ok then
    if e.camera_init_ok then
      if e.mavlink_alloc_ok then
        if e.mavlink_init_ok then
          if e.flow_alloc_ok then
            if e.bmi_alloc_ok then
              if e.bmi_init_ok then
                let pre := [Ev.new_camera, Ev.camera_init, Ev.new_mavlink,
                  Ev.mavlink_init, Ev.new_flow, Ev.new_bmi, Ev.bmi_init] ++
                  (if e.calibrate then [Ev.bmi_calibrate] else [])
                if e.bmi_start_ok then
                  (0, pre ++ [Ev.bmi_start, Ev.loop_run, Ev.bmi_stop,
                    Ev.delete_bmi, Ev.delete_flow, Ev.delete_mavlink,
                    Ev.camera_shutdown, Ev.delete_camera])
                else
                  (-1, pre ++ [Ev.bmi_start, Ev.delete_bmi, Ev.delete_flow,
                    Ev.delete_mavlink, Ev.camera_shutdown, Ev.delete_camera])
              else
                (-1, [Ev.new_camera, Ev.camera_init, Ev.new_mavlink,
                  Ev.mavlink_init, Ev.new_flow, Ev.new_bmi, Ev.bmi_init,
                  Ev.delete_bmi, Ev.delete_flow, Ev.delete_mavlink,
                  Ev.camera_shutdown, Ev.delete_camera])
            else
              (-1, [Ev.new_camera, Ev.camera_init, Ev.new_mavlink,
                Ev.mavlink_init, Ev.new_flow, Ev.new_bmi, Ev.delete_flow,
                Ev.delete_mavlink, Ev.camera_shutdown, Ev.delete_camera])
          else
            (-1, [Ev.new_camera, Ev.camera_init, Ev.new_mavlink,
              Ev.mavlink_init, Ev.new_flow, Ev.delete_mavlink,
              Ev.camera_shutdown, Ev.delete_camera])
        else
          (-1, [Ev.new_camera, Ev.camera_init, Ev.new_mavlink,
            Ev.mavlink_init, Ev.delete_mavlink, Ev.camera_shutdown,
            Ev.delete_camera])
      else
        (-1, [Ev.new_camera, Ev.camera_init, Ev.new_mavlink,
          Ev.camera_shutdown, Ev.delete_camera])
    else
      (-1, [Ev.new_camera, Ev.camera_init, Ev.delete_camera])
  else
    (-1, [Ev.new_camera])

/-! ### Concrete inputs used by the scenario theorems -/

/-- A flow result of quality 0 (the spec's concrete scenario). -/
def flow0 : FlowResult := { quality := 0, dt_us := 0, x := 0, y := 0 }

/-- A flow result with negative quality. -/
def flowNeg : FlowResult := { quality := -1, dt_us := 7, x := 8, y := 9 }

/-- A gyro sample whose timestamp coincides with `st0`'s last-seen one. -/
def g0 : GyroSample := { x := 0, y := 0, z := 0, ts_sec := 0, ts_nsec := 0 }

/-- Fresh gyro samples with strictly increasing timestamps. -/
def g1 : GyroSample := { x := 1, y := 2, z := 3, ts_sec := 0, ts_nsec := 1 }

def g2 : GyroSample := { x := 4, y := 5, z := 6, ts_sec := 0, ts_nsec := 2 }

def g3 : GyroSample := { x := 7, y := 8, z := 9, ts_sec := 0, ts_nsec := 3 }

/-- The spec's concrete scenario: raw camera timestamps 1000000 µs,
1033000 µs, 1066000 µs, strictly increasing gyro timestamps, flow quality
always 0. -/
def c1_frames : List FrameInput :=
  [ { ts := ⟨1, 0⟩, flow := flow0, gyro := g1 },
    { ts := ⟨1, 33000⟩, flow := flow0, gyro := g2 },
    { ts := ⟨1, 66000⟩, flow := flow0, gyro := g3 } ]

/-! ### Helper lemmas -/

theorem raw_us_lt (t : Timeval) : raw_us t < U32 := by
  have : (0 : Nat) < U32 := by decide
  exact Nat.mod_lt _ this

theorem rebase_list_of_ne (init : Nat) (hi : init ≠ 0) (l : List Nat) :
    rebase_list init l = l.map (fun x => (x + U32 - init % U32) % U32) := by
  induction l with
  | nil => rfl
  | cons x xs ih => simp [rebase_list, rebase_step, hi, ih]

theorem wake_dispatch_eq_take (fds : List Nat) (r : Nat) (ds : List PollFd) :
    wake_dispatch fds r ds = (ds.take r).flatMap (dispatch_one fds) := by
  induction ds generalizing r with
  | nil => cases r <;> rfl
  | cons d rest ih =>
    cases r with
    | zero => rfl
    | succ n => simp [wake_dispatch, ih, List.take]

/-! ### Claims about `camera_callback`'s suppression and emission branches -/

/-- Claim C4: when the gyro sample's timestamp (both the seconds and the
nanoseconds field) is identical to the last-seen gyro timestamp,
`camera_callback` emits no telemetry message, regardless of the flow quality;
the call returns normally with the suppression silent. -/
theorem gyro_dup_suppresses (st : MainState) (ts : Timeval) (flow : FlowResult)
    (gyro : GyroSample)
    (hdup : st.gyro_last_sec = gyro.ts_sec ∧ st.gyro_last_nsec = gyro.ts_nsec) :
    (camera_callback st ts flow gyro).2 = none := by
  simp [camera_callback, hdup.1, hdup.2]

/-- Claim C4 witness: at the concrete duplicate-timestamp input, no message
is emitted even though the flow quality is non-negative. -/
theorem gyro_dup_suppresses_witness :
    (st0.gyro_last_sec = g0.ts_sec ∧ st0.gyro_last_nsec = g0.ts_nsec) ∧
    (camera_callback st0 ⟨1, 0⟩ flow0 g0).2 = none :=
  ⟨by decide, gyro_dup_suppresses st0 ⟨1, 0⟩ flow0 g0 (by decide)⟩

/-- Claim C5: when the flow estimator reports a negative quality,
`camera_callback` emits no telemetry message, whether or not the gyro
timestamp differs from the previous one; the call returns normally. -/
theorem negative_quality_suppresses (st : MainState) (ts : Timeval)
    (flow : FlowResult) (gyro : GyroSample) (hq : flow.quality < 0) :
    (camera_callback st ts flow gyro).2 = none := by
  by_cases hdup : st.gyro_last_sec = gyro.ts_sec ∧ st.gyro_last_nsec = gyro.ts_nsec
  · simp [camera_callback, hdup.1, hdup.2]
  · simp only [camera_callback]
    rw [if_neg (by simpa using hdup), if_pos hq]

/-- Claim C5 witness: at a concrete fresh-gyro input with quality −1, no
message is emitted. -/
theorem negative_quality_suppresses_witness :
    flowNeg.quality < 0 ∧ (camera_callback st0 ⟨1, 0⟩ flowNeg g1).2 = none :=
  ⟨by decide, negative_quality_suppresses st0 ⟨1, 0⟩ flowNeg g1 (by decide)⟩

/-- Claim C6: when the flow quality is non-negative and the gyro timestamp
differs from the last-seen one, `camera_callback` emits exactly one message;
its `quality` is the estimator's quality, its gyro fields are the inertial
source's x/y/z, its `integrated_x`/`integrated_y`/`integration_time_us` come
from the flow result, and the sentinel fields are fixed
(`time_delta_distance_us = 0`, `distance = -1`, `temperature = 0`,
`sensor_id = 0`). -/
theorem fresh_gyro_emits (st : MainState) (ts : Timeval) (flow : FlowResult)
    (gyro : GyroSample) (hq : 0 ≤ flow.quality)
    (hfresh : ¬(st.gyro_last_sec = gyro.ts_sec ∧ st.gyro_last_nsec = gyro.ts_nsec)) :
    (camera_callback st ts flow gyro).2 = some
      { time_usec := raw_us64 ts
        integration_time_us := flow.dt_us
        integrated_x := flow.x
        integrated_y := flow.y
        integrated_xgyro := gyro.x
        integrated_ygyro := gyro.y
        integrated_zgyro := gyro.z
        time_delta_distance_us := 0
        distance := -1
        temperature := 0
        sensor_id := 0
        quality := flow.quality } := by
  simp only [camera_callback]
  rw [if_neg (by simpa using hfresh), if_neg (not_lt.mpr hq)]

/-- Claim C6 witness: at a concrete fresh-gyro, quality-0 input exactly the
stated message is emitted. -/
theorem fresh_gyro_emits_witness :
    0 ≤ flow0.quality ∧
    ¬(st0.gyro_last_sec = g1.ts_sec ∧ st0.gyro_last_nsec = g1.ts_nsec) ∧
    (camera_callback st0 ⟨1, 0⟩ flow0 g1).2 = some
      { time_usec := raw_us64 ⟨1, 0⟩
        integration_time_us := flow0.dt_us
        integrated_x := flow0.x
        integrated_y := flow0.y
        integrated_xgyro := g1.x
        integrated_ygyro := g1.y
        integrated_zgyro := g1.z
        time_delta_distance_us := 0
        distance := -1
        temperature := 0
        sensor_id := 0
        quality := flow0.quality } :=
  ⟨by decide, by decide,
    fresh_gyro_emits st0 ⟨1, 0⟩ flow0 g1 (by decide) (by decide)⟩

/-- Claim C8: on every invocation, `_camera_prev_timestamp` is set to the
current frame's rebased timestamp (and `_camera_initial_timestamp` to the
rebase origin), including when output is suppressed; and the two suppression
checks are independent short-circuits: the output is suppressed exactly when
the gyro timestamp is a duplicate (a condition on the gyro state alone) or
the flow quality is negative (a condition on the flow result alone). -/
theorem prev_timestamp_always_updated (st : MainState) (ts : Timeval)
    (flow : FlowResult) (gyro : GyroSample) :
    (camera_callback st ts flow gyro).1.cam_prev =
      (rebase_step st.cam_initial (raw_us ts)).2 ∧
    (camera_callback st ts flow gyro).1.cam_initial =
      (rebase_step st.cam_initial (raw_us ts)).1 ∧
    ((camera_callback st ts flow gyro).2 = none ↔
      (st.gyro_last_sec = gyro.ts_sec ∧ st.gyro_last_nsec = gyro.ts_nsec) ∨
        flow.quality < 0) := by
  by_cases hdup : st.gyro_last_sec = gyro.ts_sec ∧ st.gyro_last_nsec = gyro.ts_nsec
  · simp [camera_callback, hdup.1, hdup.2]
  · by_cases hq : flow.quality < 0
    · simp only [camera_callback]
      rw [if_neg (by simpa using hdup), if_pos hq]
      simp [hdup, hq]
    · simp only [camera_callback]
      rw [if_neg (by simpa using hdup), if_neg hq]
      simp [hdup, hq]

/-! ### Claims about the timestamp rebasing -/

theorem rebase_cons_of_ne (r0 : Nat) (h0 : r0 ≠ 0) (hlt : r0 < U32)
    (l : List Nat) :
    rebase_list 0 (r0 :: l) = 0 :: l.map (fun x => (x + U32 - r0) % U32) := by
  simp [rebase_list, rebase_step, rebase_list_of_ne _ h0, Nat.mod_eq_of_lt hlt]

/-- Claim C3 counterexample: with raw timestamps [0 µs, 5 µs] the second
frame's rebased timestamp is 0, not the claimed raw difference 5 — the code
tests the stored initial timestamp for truthiness, so a first frame whose raw
value is 0 does not fix the rebase origin. -/
theorem rebase_zero_counterexample :
    rebased_seq [⟨0, 0⟩, ⟨0, 5⟩] = [0, 0] ∧
    rebased_seq [⟨0, 0⟩, ⟨0, 5⟩] ≠
      [0, raw_us ⟨0, 5⟩ - raw_us ⟨0, 0⟩] := by decide

/-- Claim C3 (amended): provided the first frame's 32-bit raw microsecond
value is nonzero, the first rebased timestamp is 0 and each later one is the
difference from the first raw value modulo `2 ^ 32`; when the 32-bit raw
sequence is non-decreasing the differences are exact and the rebased sequence
is non-decreasing. -/
theorem rebase_spec (h : Timeval) (rest : List Timeval) (h0 : raw_us h ≠ 0) :
    rebased_seq (h :: rest) =
      0 :: rest.map (fun t => (raw_us t + U32 - raw_us h) % U32) ∧
    (List.Sorted (· ≤ ·) ((h :: rest).map raw_us) →
      rebased_seq (h :: rest) =
        0 :: rest.map (fun t => raw_us t - raw_us h) ∧
      List.Sorted (· ≤ ·) (rebased_seq (h :: rest))) := by
  have e1 : rebased_seq (h :: rest) =
      0 :: rest.map (fun t => (raw_us t + U32 - raw_us h) % U32) := by
    have := rebase_cons_of_ne (raw_us h) h0 (raw_us_lt h) (rest.map raw_us)
    simpa [rebased_seq, Function.comp] using this
  refine ⟨e1, fun hs => ?_⟩
  rw [List.map_cons, List.sorted_cons] at hs
  have hall : ∀ t ∈ rest, raw_us h ≤ raw_us t := by
    intro t ht
    exact hs.1 _ (List.mem_map_of_mem _ ht)
  have e2 : rest.map (fun t => (raw_us t + U32 - raw_us h) % U32) =
      rest.map (fun t => raw_us t - raw_us h) := by
    refine List.map_congr_left (fun t ht => ?_)
    have h1 := hall t ht
    have h2 := raw_us_lt t
    simp only [U32] at h2 ⊢
    omega
  refine ⟨by rw [e1, e2], ?_⟩
  rw [e1, e2]
  refine List.sorted_cons.mpr ⟨fun b _ => Nat.zero_le b, ?_⟩
  have : rest.map (fun t => raw_us t - raw_us h) =
      (rest.map raw_us).map (fun x => x - raw_us h) := by
    rw [List.map_map]; rfl
  rw [this]
  exact hs.2.map _ (fun a b hab => Nat.sub_le_sub_right hab _)

/-- Claim C3 witness: for raw timestamps [5 µs, 7 µs] (nonzero first value,
sorted) the rebased sequence is [0, 7 − 5] and is non-decreasing. -/
theorem rebase_spec_witness :
    raw_us ⟨0, 5⟩ ≠ 0 ∧
    rebased_seq [⟨0, 5⟩, ⟨0, 7⟩] =
      0 :: [Timeval.mk 0 7].map (fun t => raw_us t - raw_us ⟨0, 5⟩) ∧
    List.Sorted (· ≤ ·) (rebased_seq [⟨0, 5⟩, ⟨0, 7⟩]) :=
  ⟨by decide,
   ((rebase_spec ⟨0, 5⟩ [⟨0, 7⟩] (by decide)).2 (by decide)).1,
   ((rebase_spec ⟨0, 5⟩ [⟨0, 7⟩] (by decide)).2 (by decide)).2⟩

/-- Claim C9: every leading frame whose computed 32-bit raw microsecond value
is 0 is reported with rebased timestamp 0 without fixing the rebase origin;
the origin actually used for all later frames is the raw value of the first
frame whose computed value is nonzero. -/
theorem zero_leading_frames (zs : List Timeval) (t : Timeval)
    (rest : List Timeval) (hz : ∀ z ∈ zs, raw_us z = 0) (ht : raw_us t ≠ 0) :
    rebased_seq (zs ++ t :: rest) =
      zs.map (fun _ => 0) ++
        0 :: rest.map (fun x => (raw_us x + U32 - raw_us t) % U32) := by
  induction zs with
  | nil =>
    have := rebase_cons_of_ne (raw_us t) ht (raw_us_lt t) (rest.map raw_us)
    simpa [rebased_seq, Function.comp] using this
  | cons z zs ih =>
    have hz0 : raw_us z = 0 := hz z (List.mem_cons_self _ _)
    have ihz : ∀ w ∈ zs, raw_us w = 0 := fun w hw => hz w (List.mem_cons_of_mem _ hw)
    simp only [rebased_seq, List.cons_append, List.map_cons, rebase_list,
      rebase_step, hz0] at ih ⊢
    simpa using ih ihz

/-- Claim C9 witness: with raw timestamps [0, 3, 4] the outputs are
[0, 0, 1] — the zero first frame does not fix the origin, the origin becomes
3, and the last frame is rebased against 3. -/
theorem zero_leading_frames_witness :
    (∀ z ∈ [Timeval.mk 0 0], raw_us z = 0) ∧ raw_us ⟨0, 3⟩ ≠ 0 ∧
    rebased_seq ([⟨0, 0⟩] ++ ⟨0, 3⟩ :: [⟨0, 4⟩]) =
      [Timeval.mk 0 0].map (fun _ => 0) ++
        0 :: [Timeval.mk 0 4].map (fun x => (raw_us x + U32 - raw_us ⟨0, 3⟩) % U32) :=
  ⟨by decide, by decide,
   zero_leading_frames [⟨0, 0⟩] ⟨0, 3⟩ [⟨0, 4⟩] (by decide) (by decide)⟩

/-! ### Claims about the concrete three-frame scenario -/

/-- Claim C1 counterexample: in the spec's concrete scenario exactly 3
messages are emitted, but their `time_usec` fields are not the rebased
timestamps [0, 33000, 66000] — line 177 recomputes the raw timestamp for the
message. -/
theorem scenario_counterexample :
    (run_frames st0 c1_frames).2.length = 3 ∧
    (run_frames st0 c1_frames).2.map (fun m => m.time_usec) ≠
      [0, 33000, 66000] := by decide

/-- Claim C1 (amended): in the spec's concrete scenario exactly 3 messages
are emitted and their `time_usec` fields are the raw timestamps
[1000000, 33000 + 1000000, 66000 + 1000000]; the rebased values
[0, 33000, 66000] are computed and used for the flow pipeline but not for
the message's `time_usec` field. -/
theorem scenario_three_messages :
    (run_frames st0 c1_frames).2.length = 3 ∧
    (run_frames st0 c1_frames).2.map (fun m => m.time_usec) =
      [1000000, 1033000, 1066000] ∧
    rebased_seq [⟨1, 0⟩, ⟨1, 33000⟩, ⟨1, 66000⟩] = [0, 33000, 66000] := by
  decide

/-! ### Claims about the wake-up dispatch -/

/-- Claim C2 counterexample: with handles [10, 11, 12] and only the third
descriptor (the telemetry transport) read-ready, `poll` reports one ready
descriptor, the third source's dispatch would be a read of pollable 2, yet
the wake dispatches nothing — the loop decrements the ready count once per
descriptor examined, so a ready source past that count is skipped on that
wake. -/
theorem wake_misses_ready_source :
    poll_ret [⟨10, 0⟩, ⟨11, 0⟩, ⟨12, POLLIN⟩] = 1 ∧
    PollFd.revents ⟨12, POLLIN⟩ &&& (POLLIN ||| POLLPRI) ≠ 0 ∧
    dispatch_one [10, 11, 12] ⟨12, POLLIN⟩ = [Dispatch.read 2] ∧
    wake [10, 11, 12] [⟨10, 0⟩, ⟨11, 0⟩, ⟨12, POLLIN⟩] = [] := by decide

/-- Claim C2 (amended): on each wake with `ret` descriptors ready, exactly
the first `ret` descriptors in fixed array order (camera, inertial sensor,
telemetry transport) are examined; each examined descriptor is dispatched to
the pollable matching its handle — read handler when read-ready, write
handler when write-ready — and ready descriptors past the first `ret` array
positions are not dispatched on that wake. -/
theorem wake_dispatches_prefix (fds : List Nat) (ds : List PollFd) :
    wake fds ds = (ds.take (poll_ret ds)).flatMap (dispatch_one fds) :=
  wake_dispatch_eq_take fds (poll_ret ds) ds

/-! ### Claims about the 32-bit timestamp arithmetic -/

/-- Claim C10 counterexample: the raw timestamps 5 µs and 2^32 + 5 µs reduce
to the same 32-bit value, yet the two calls are distinguishable: the emitted
message's `time_usec` is computed in 64-bit arithmetic from the raw `timeval`
and differs. -/
theorem u32_wrap_distinguishable :
    raw_us ⟨0, 5⟩ = raw_us ⟨4294, 967301⟩ ∧
    967301 + 4294 * USEC_PER_SEC = 5 + U32 ∧
    (camera_callback st0 ⟨0, 5⟩ flow0 g1).2 ≠
      (camera_callback st0 ⟨4294, 967301⟩ flow0 g1).2 := by decide

/-- Claim C10 (amended): the flow-pipeline timestamp arithmetic is unsigned
32-bit — the raw value is reduced modulo 2^32, adding any multiple of 2^32 µs
to a frame's timestamp leaves the entire resulting session state unchanged,
and the rebased sequence can wrap around (here [0, 2^32 − 1, 0]) for
monotonically increasing raw input; only the emitted message's 64-bit
`time_usec` field escapes the truncation. -/
theorem timestamp_arithmetic_u32 :
    (∀ t : Timeval, raw_us t < U32) ∧
    (∀ (st : MainState) (flow : FlowResult) (gyro : GyroSample)
      (sec usec k : Nat),
      (camera_callback st ⟨sec, usec + k * U32⟩ flow gyro).1 =
        (camera_callback st ⟨sec, usec⟩ flow gyro).1) ∧
    rebased_seq [⟨0, 1⟩, ⟨4294, 967296⟩, ⟨4294, 967297⟩] =
      [0, 4294967295, 0] ∧
    ¬ List.Sorted (· ≤ ·)
      (rebased_seq [⟨0, 1⟩, ⟨4294, 967296⟩, ⟨4294, 967297⟩]) := by
  refine ⟨raw_us_lt, ?_, by decide, by decide⟩
  intro st flow gyro sec usec k
  have h : raw_us ⟨sec, usec + k * U32⟩ = raw_us ⟨sec, usec⟩ := by
    simp only [raw_us, U32]
    omega
  simp only [camera_callback, h, apply_ite Prod.fst]

/-! ### Claim about the startup failure teardown of `run` -/

/-- Claim C7: if the inertial source's initialization or start fails after
camera, telemetry transport and flow estimator were successfully set up,
`run` returns −1 and, before doing so, releases the flow estimator exactly
once, releases the telemetry transport exactly once, and shuts down and
releases the camera exactly once, with the trace ending in the reverse
construction order delete BMI160, delete flow estimator, delete telemetry
transport, camera shutdown, delete camera. -/
theorem bmi_failure_teardown (e : RunEnv)
    (hc : e.camera_alloc_ok = true) (hci : e.camera_init_ok = true)
    (hm : e.mavlink_alloc_ok = true) (hmi : e.mavlink_init_ok = true)
    (hf : e.flow_alloc_ok = true) (hb : e.bmi_alloc_ok = true)
    (hfail : e.bmi_init_ok = false ∨ e.bmi_start_ok = false) :
    (run e).1 = -1 ∧
    (run e).2.count Ev.delete_flow = 1 ∧
    (run e).2.count Ev.delete_mavlink = 1 ∧
    (run e).2.count Ev.camera_shutdown = 1 ∧
    (run e).2.count Ev.delete_camera = 1 ∧
    (run e).2.count Ev.delete_bmi = 1 ∧
    (run e).2.drop ((run e).2.length - 5) =
      [Ev.delete_bmi, Ev.delete_flow, Ev.delete_mavlink, Ev.camera_shutdown,
        Ev.delete_camera] := by
  obtain ⟨ca, ci, ma, mi, fa, ba, bi, cal, bs⟩ := e
  simp only at hc hci hm hmi hf hb hfail
  subst hc hci hm hmi hf hb
  cases bi <;> cases cal <;> cases bs <;>
    first
      | decide
      | (rcases hfail with h | h <;> exact absurd h (by decide))

/-- Claim C7 witness: concrete environment in which the BMI160 init fails
after all earlier collaborators succeeded. -/
theorem bmi_failure_teardown_witness :
    (run ⟨true, true, true, true, true, true, false, false, true⟩).1 = -1 ∧
    (run ⟨true, true, true, true, true, true, false, false, true⟩).2.count
      Ev.delete_flow = 1 ∧
    (run ⟨true, true, true, true, true, true, false, false, true⟩).2.count
      Ev.delete_mavlink = 1 ∧
    (run ⟨true, true, true, true, true, true, false, false, true⟩).2.count
      Ev.camera_shutdown = 1 ∧
    (run ⟨true, true, true, true, true, true, false, false, true⟩).2.count
      Ev.delete_camera = 1 ∧
    (run ⟨true, true, true, true, true, true, false, false, true⟩).2.count
      Ev.delete_bmi = 1 ∧
    (run ⟨true, true, true, true, true, true, false, false, true⟩).2.drop
      ((run ⟨true, true, true, true, true, true, false, false, true⟩).2.length - 5) =
      [Ev.delete_bmi, Ev.delete_flow, Ev.delete_mavlink, Ev.camera_shutdown,
        Ev.delete_camera] :=
  bmi_failure_teardown ⟨true, true, true, true, true, true, false, false, true⟩
    rfl rfl rfl rfl rfl rfl (Or.inl rfl)
